import Mathlib

/-!
Shallow embedding of the Place Import & Deduplication Pipeline implemented in
`backend/routers/data_router.py` (FastAPI + SQLAlchemy on a SQLite backend),
together with the parts of `backend/models.py` it persists to.

Modelling conventions:
* floating-point degrees are modelled as rationals;
* the SQLAlchemy session is modelled as an explicit `Db` value: `db.add`
  followed by `db.flush` makes a row visible to later queries of the same
  request, and `db.commit` atomically publishes the session state (a failed
  commit publishes nothing, per the transactional persistence contract);
* `column.ilike(pattern)` is modelled on ASCII-lowercased character lists with
  SQLite LIKE semantics: `%` matches any sequence, `_` any single character;
* the Google Places HTTP client is modelled as a pair of oracle functions
  (`byId`, `byText`), deterministic within and across requests, since any
  transport failure or non-200 response is already collapsed to `None` by
  `get_place_details_from_google` / `search_place_by_name`;
* fresh `Tag` primary keys are drawn from a counter stored in `Db`.
-/

/-- SQL LIKE pattern matching as evaluated by SQLite (no ESCAPE clause): in
the pattern, `%` matches any sequence of characters, `_` matches exactly one
character, and every other character matches itself.  The first argument is
the pattern, the second the subject string. -/
def likeMatch : List Char → List Char → Bool
  | [], s => s.isEmpty
  | p :: ps, s =>
    if p = '%' then
      s.tails.any (likeMatch ps)
    else
      match s with
      | [] => false
      | c :: cs => (decide (p = '_') || p == c) && likeMatch ps cs

theorem likeMatch_head_pct (ps : List Char) {s t : List Char} (hsuf : t <:+ s)
    (h : likeMatch ps t = true) : likeMatch ('%' :: ps) s = true := by
  have hun : likeMatch ('%' :: ps) s = s.tails.any (likeMatch ps) := by
    simp [likeMatch]
  rw [hun, List.any_eq_true]
  exact ⟨t, (List.mem_tails t s).2 hsuf, h⟩

theorem likeMatch_self (s : List Char) : likeMatch s s = true := by
  induction s with
  | nil => simp [likeMatch]
  | cons c cs ih =>
    by_cases h : c = '%'
    · subst h
      exact likeMatch_head_pct cs (List.suffix_cons _ _) ih
    · simp [likeMatch, h, ih]

theorem likeMatch_eq_of_noWild (p : List Char) (h : ∀ c ∈ p, c ≠ '%' ∧ c ≠ '_') :
    ∀ s, (likeMatch p s = true ↔ p = s) := by
  induction p with
  | nil => intro s; cases s <;> simp [likeMatch]
  | cons a ps ih =>
    intro s
    obtain ⟨ha1, ha2⟩ := h a (by simp)
    have hps : ∀ c ∈ ps, c ≠ '%' ∧ c ≠ '_' := fun c hc => h c (by simp [hc])
    cases s with
    | nil => simp [likeMatch, ha1]
    | cons c cs =>
      simp [likeMatch, ha1, ha2, ih hps cs, and_comm]

/-- Characters are lowercased only inside the basic latin uppercase range, so
lowercasing never produces a LIKE wildcard that was not already there. -/
theorem toLower_eq_wild {c w : Char} (hw : w = '%' ∨ w = '_')
    (h : Char.toLower c = w) : c = w := by
  unfold Char.toLower at h
  simp only [ge_iff_le] at h
  split at h
  · rename_i hrange
    exfalso
    obtain ⟨h1, h2⟩ := hrange
    set n := c.toNat with hn
    have h1' : 65 ≤ n := h1
    have h2' : n ≤ 90 := h2
    interval_cases n <;> rcases hw with hw | hw <;> subst hw <;> exact absurd h (by decide)
  · exact h

/-- ASCII lowercasing of a string, character by character: this is how the
SQLite `lower()` function (applied by SQLAlchemy `ilike`) behaves. -/
def lowerChars (s : String) : List Char := s.toList.map Char.toLower

/-- `column.ilike(pattern)` as rendered on the SQLite backend:
`lower(column) LIKE lower(pattern)`. -/
def ilike (s pattern : String) : Bool := likeMatch (lowerChars pattern) (lowerChars s)

theorem ilike_self (s : String) : ilike s s = true := likeMatch_self _

/-- The candidate string contains no SQL LIKE wildcard characters. -/
def noWildcards (s : String) : Bool :=
  s.toList.all fun c => !(c == '%') && !(c == '_')

theorem lowerChars_noWild {s : String} (h : noWildcards s = true) :
    ∀ c ∈ lowerChars s, c ≠ '%' ∧ c ≠ '_' := by
  intro c hc
  obtain ⟨a, ha, rfl⟩ := List.mem_map.1 hc
  have := List.all_eq_true.1 h a ha
  simp only [Bool.and_eq_true, Bool.not_eq_true', beq_eq_false_iff_ne] at this
  constructor
  · intro heq
    exact this.1 (toLower_eq_wild (Or.inl rfl) heq)
  · intro heq
    exact this.2 (toLower_eq_wild (Or.inr rfl) heq)

/-- For wildcard-free candidate names, `ilike` is exactly case-insensitive
(ASCII) string equality. -/
theorem ilike_eq_of_noWild {s pattern : String} (h : noWildcards pattern = true) :
    (ilike s pattern = true ↔ lowerChars pattern = lowerChars s) :=
  likeMatch_eq_of_noWild _ (lowerChars_noWild h) _

/-! ## Data model (`backend/models.py`) -/

/-- Row of the `tags` table (`models.Tag`): id, owner reference, name. -/
structure Tag where
  id : String
  user_id : String
  name : String
deriving DecidableEq, Repr

/-- Row of the `places` table (`models.Place`) together with its `place_tags`
association entries (`place.tags` holds one tag id per association row, in
insertion order, duplicates included, as in the ORM collection). -/
structure Place where
  user_id : String
  name : String
  address : String
  latitude : ℚ
  longitude : ℚ
  notes : String
  phone : Option String
  website : Option String
  hours : Option String
  is_public : Bool
  tags : List String
deriving DecidableEq, Repr

/-- State of the storage visible to a session: all places and tags (of all
users), plus the counter used to mint fresh tag primary keys. -/
structure Db where
  places : List Place
  tags : List Tag
  nextTagId : Nat
deriving DecidableEq, Repr

def emptyDb : Db := { places := [], tags := [], nextTagId := 0 }

/-! ## Duplicate Detector (`is_duplicate_place`) -/

/-- The fixed proximity tolerance of 0.0001 degrees. -/
def threshold : ℚ := 1 / 10000

/-- The row predicate of the `is_duplicate_place` query: same owner, latitude
and longitude each `BETWEEN` candidate minus threshold and candidate plus
threshold (SQL BETWEEN is inclusive), and name `ilike` the candidate name. -/
def dupPred (user_id : String) (lat lng : ℚ) (name : String) (p : Place) : Bool :=
  p.user_id == user_id &&
  (decide (lat - threshold ≤ p.latitude) && decide (p.latitude ≤ lat + threshold)) &&
  (decide (lng - threshold ≤ p.longitude) && decide (p.longitude ≤ lng + threshold)) &&
  ilike p.name name

/-- `is_duplicate_place(db, user_id, lat, lng, name)`: does any existing place
of this owner lie within the tolerance box and match the name
case-insensitively (via `ilike`)? -/
def is_duplicate_place (places : List Place) (user_id : String) (lat lng : ℚ)
    (name : String) : Bool :=
  places.any (dupPred user_id lat lng name)

theorem dupPred_self (user : String) (lat lng : ℚ) (name : String) (p : Place)
    (hu : p.user_id = user) (hlat : p.latitude = lat) (hlng : p.longitude = lng)
    (hname : p.name = name) : dupPred user lat lng name p = true := by
  have hth : (0 : ℚ) ≤ threshold := by norm_num [threshold]
  simp only [dupPred, hu, hlat, hlng, hname, ilike_self, Bool.and_true, Bool.and_eq_true,
    beq_self_eq_true, decide_eq_true_eq, true_and]
  constructor
  · constructor <;> linarith
  · constructor <;> linarith

theorem is_duplicate_of_mem {places : List Place} {p : Place} (hp : p ∈ places)
    (user : String) (lat lng : ℚ) (name : String)
    (h : dupPred user lat lng name p = true) :
    is_duplicate_place places user lat lng name = true :=
  List.any_eq_true.2 ⟨p, hp, h⟩

theorem is_duplicate_mono {places places' : List Place}
    (hsub : ∀ p ∈ places, p ∈ places') {user : String} {lat lng : ℚ} {name : String}
    (h : is_duplicate_place places user lat lng name = true) :
    is_duplicate_place places' user lat lng name = true := by
  obtain ⟨p, hp, hpred⟩ := List.any_eq_true.1 h
  exact List.any_eq_true.2 ⟨p, hsub p hp, hpred⟩

/-! ## Place Enricher helpers (`extract_place_id_from_url`, Google oracles) -/

/-- Character class `[a-zA-Z0-9_-]` of the place-id regexes. -/
def isIdChar (c : Char) : Bool := c.isAlphanum || c == '_' || c == '-'

/-- Leftmost occurrence of `place_id=` followed by at least one id character;
returns the maximal id-character run (regex `place_id=([a-zA-Z0-9_-]+)`). -/
def scanPlaceIdParam : List Char → Option String
  | [] => none
  | c :: cs =>
    if "place_id=".toList.isPrefixOf (c :: cs) then
      let run := ((c :: cs).drop 9).takeWhile isIdChar
      if run.isEmpty then scanPlaceIdParam cs else some (String.mk run)
    else scanPlaceIdParam cs

/-- After a `/data=` marker: first `1s` followed by at least one id character,
returning the maximal run (lazy `.*?1s([a-zA-Z0-9_-]+)`). -/
def scanOneS : List Char → Option (List Char)
  | [] => none
  | c :: cs =>
    if "1s".toList.isPrefixOf (c :: cs) then
      let run := (cs.drop 1).takeWhile isIdChar
      if run.isEmpty then scanOneS cs else some run
    else scanOneS cs

/-- Leftmost `/data=` marker (regex `/data=.*?1s([a-zA-Z0-9_-]+)`). -/
def scanDataBlob : List Char → Option (List Char)
  | [] => none
  | c :: cs =>
    if "/data=".toList.isPrefixOf (c :: cs) then scanOneS ((c :: cs).drop 6)
    else scanDataBlob cs

/-- `extract_place_id_from_url`: the direct `place_id=` query parameter first,
then the embedded `/data=...1s...` blob whose id must exceed 10 characters. -/
def extract_place_id_from_url (url : String) : Option String :=
  match scanPlaceIdParam url.toList with
  | some pid => some pid
  | none =>
    match scanDataBlob url.toList with
    | some run => if run.length > 10 then some (String.mk run) else none
    | none => none

/-- The `location` object of a Places API document; latitude or longitude may
be absent. -/
structure GLocation where
  latitude : Option ℚ
  longitude : Option ℚ
deriving DecidableEq, Repr

/-- The fields of a Places API document that the pipeline reads, with the
`.get(..., default)` defaults already applied.  `weekdayDescriptions` stands
for `regularOpeningHours.weekdayDescriptions` (absent hours = empty list). -/
structure PlaceDetails where
  location : GLocation
  formattedAddress : String
  internationalPhoneNumber : String
  websiteUri : String
  weekdayDescriptions : List String
deriving DecidableEq, Repr

/-- The external lookup service: `get_place_details_from_google` (fetch by
identifier) and `search_place_by_name` (free-text search, first result).
Missing API key, transport errors and non-200 responses are already `none`. -/
structure GoogleApi where
  byId : String → Option PlaceDetails
  byText : String → Option PlaceDetails

/-- Python truthiness of `location.get("latitude")`: falsy when absent or 0. -/
def qFalsy : Option ℚ → Bool
  | none => true
  | some q => q == 0

/-- Python truthiness of an optional string field. -/
def strTruthy : Option String → Bool
  | none => false
  | some s => !s.isEmpty

/-! ## Tag Reconciler -/

/-- The sub-state read and written by tag resolution: session storage, the
per-batch `tag_cache` (keyed by lowercased tag name, insertion order), and the
`tags_created` / `tags_matched` counters. -/
structure TagCtx where
  db : Db
  cache : List (String × String)
  created : Nat
  matched : Nat
deriving DecidableEq, Repr

/-- Lookup in the per-batch tag cache (`tag_name.lower() in tag_cache`). -/
def cacheFind (cache : List (String × String)) (k : String) : Option String :=
  (cache.find? fun kv => kv.1 == k).map Prod.snd

/-- Lowercased key used by the tag cache (`tag_name.lower()`). -/
def lowerKey (s : String) : String := String.mk (lowerChars s)

/-- The tag query shared by every path:
`db.query(Tag).filter(Tag.user_id == user, Tag.name.ilike(tag_name)).first()`. -/
def dbFindTag (db : Db) (user : String) (tag_name : String) : Option Tag :=
  db.tags.find? fun t => t.user_id == user && ilike t.name tag_name

/-- `get_or_create_tag(db, user_id, tag_name)`: case-insensitive lookup, and
on a miss a new tag is added and flushed. -/
def get_or_create_tag (db : Db) (user : String) (tag_name : String) : Tag × Db :=
  match dbFindTag db user tag_name with
  | some t => (t, db)
  | none =>
    let t : Tag := { id := "tag" ++ toString db.nextTagId, user_id := user, name := tag_name }
    (t, { db with tags := db.tags ++ [t], nextTagId := db.nextTagId + 1 })

/-- One iteration of the tag loop of `import_from_google_maps_csv` and
`import_from_geojson` (they are verbatim copies of each other): consult the
cache, else query by `ilike`, counting a match, else create and flush a new
tag, counting a creation; returns the id linked to the place. -/
def importResolveTag (user : String) (tc : TagCtx) (tag_name : String) :
    TagCtx × String :=
  match cacheFind tc.cache (lowerKey tag_name) with
  | some tid => (tc, tid)
  | none =>
    match dbFindTag tc.db user tag_name with
    | some t =>
      ({ tc with matched := tc.matched + 1,
                 cache := tc.cache ++ [(lowerKey tag_name, t.id)] }, t.id)
    | none =>
      let tid := "tag" ++ toString tc.db.nextTagId
      ({ tc with
           db := { tc.db with
                     tags := tc.db.tags ++ [{ id := tid, user_id := user, name := tag_name }],
                     nextTagId := tc.db.nextTagId + 1 },
           created := tc.created + 1,
           cache := tc.cache ++ [(lowerKey tag_name, tid)] }, tid)

/-- The tag loop of the one-shot import paths, in input order; the returned
list holds the ids appended to `place.tags`, one per processed name. -/
def importResolveTags (user : String) (tc : TagCtx) :
    List String → TagCtx × List String
  | [] => (tc, [])
  | n :: ns =>
    let r1 := importResolveTag user tc n
    let r2 := importResolveTags user r1.1 ns
    (r2.1, r1.2 :: r2.2)

/-- One iteration of the tag loop of `confirm_import`: empty names are
skipped; a cache hit counts as matched; on a miss `get_or_create_tag` runs and
the result counts as created exactly when its stored name equals the submitted
name character for character. -/
def confirmResolveTag (user : String) (tc : TagCtx) (tag_name : String) :
    TagCtx × Option String :=
  if tag_name.isEmpty then (tc, none)
  else
    match cacheFind tc.cache (lowerKey tag_name) with
    | some tid => ({ tc with matched := tc.matched + 1 }, some tid)
    | none =>
      let r := get_or_create_tag tc.db user tag_name
      let tc1 := { tc with db := r.2, cache := tc.cache ++ [(lowerKey tag_name, r.1.id)] }
      if r.1.name == tag_name then
        ({ tc1 with created := tc1.created + 1 }, some r.1.id)
      else
        ({ tc1 with matched := tc1.matched + 1 }, some r.1.id)

/-- The tag loop of `confirm_import`, in input order. -/
def confirmResolveTags (user : String) (tc : TagCtx) :
    List String → TagCtx × List String
  | [] => (tc, [])
  | n :: ns =>
    let r1 := confirmResolveTag user tc n
    let r2 := confirmResolveTags user r1.1 ns
    (r2.1, r1.2.toList ++ r2.2)

theorem importResolveTag_places (user : String) (tc : TagCtx) (n : String) :
    (importResolveTag user tc n).1.db.places = tc.db.places := by
  unfold importResolveTag
  rcases cacheFind tc.cache (lowerKey n) with _ | tid
  · rcases dbFindTag tc.db user n with _ | t <;> simp
  · simp

theorem importResolveTags_places (user : String) (ns : List String) :
    ∀ tc : TagCtx, (importResolveTags user tc ns).1.db.places = tc.db.places := by
  induction ns with
  | nil => intro tc; rfl
  | cons n ns ih =>
    intro tc
    simp only [importResolveTags]
    rw [ih, importResolveTag_places]

theorem confirmResolveTag_places (user : String) (tc : TagCtx) (n : String) :
    (confirmResolveTag user tc n).1.db.places = tc.db.places := by
  unfold confirmResolveTag get_or_create_tag
  split
  · rfl
  · rcases hc : cacheFind tc.cache (lowerKey n) with _ | tid
    · rcases hd : dbFindTag tc.db user n with _ | t
      · simp only [hc, hd]
        split <;> simp
      · simp only [hc, hd]
        split <;> simp
    · simp [hc]

theorem confirmResolveTags_places (user : String) (ns : List String) :
    ∀ tc : TagCtx, (confirmResolveTags user tc ns).1.db.places = tc.db.places := by
  induction ns with
  | nil => intro tc; rfl
  | cons n ns ih =>
    intro tc
    simp only [confirmResolveTags]
    rw [ih, confirmResolveTag_places]

/-! ## Tabular (Google Maps CSV) one-shot import -/

/-- One row as produced by `csv.DictReader`, restricted to the columns the
importer reads, with the `row.get(column, "")` default already applied. -/
structure CsvRow where
  note : String
  title : String
  url : String
  tags : String
  comment : String
deriving DecidableEq, Repr


/-- Python `str.strip()`: drop leading and trailing whitespace. -/
def pyStrip (s : String) : String :=
  String.mk (((s.toList.dropWhile Char.isWhitespace).reverse.dropWhile
    Char.isWhitespace).reverse)

/-- Splitting a character list at every comma, Python `str.split(",")`. -/
def splitComma : List Char → List (List Char)
  | [] => [[]]
  | c :: cs =>
    let r := splitComma cs
    if c = ',' then [] :: r
    else
      match r with
      | [] => [[c]]
      | t :: ts => (c :: t) :: ts

def pySplitComma (s : String) : List String := (splitComma s.toList).map String.mk

/-- `file.filename.lower().endswith(".csv")` (a missing filename reads as the
empty string). -/
def hasCsvExt (filename : Option String) : Bool :=
  ".csv".toList.isSuffixOf (lowerChars (filename.getD ""))

/-- `row.get("Note", "").strip() or row.get("Title", "").strip()`. -/
def rowName (r : CsvRow) : String :=
  if (pyStrip r.note).isEmpty then pyStrip r.title else pyStrip r.note

/-- `[t.strip() for t in tags_str.split(",") if t.strip()]`. -/
def parseTags (tags_str : String) : List String :=
  ((pySplitComma tags_str).map pyStrip).filter (fun t => !t.isEmpty)

/-- The enrichment lookup of the tabular path: extract a place id from the
URL and fetch by id; on a missing id or an empty fetch fall back to free-text
search by name. -/
def rowLookup (api : GoogleApi) (name url : String) : Option PlaceDetails :=
  match extract_place_id_from_url url with
  | some pid =>
    match api.byId pid with
    | some d => some d
    | none => api.byText name
  | none => api.byText name

/-- Pre-persistence analysis of one CSV row (lines 278 to 336 of the router):
everything up to and including the enrichment calls, which depends only on the
row and the oracle, never on storage. -/
inductive RowOutcome where
  | badRow
  | notFound (name : String)
  | noCoords (name : String)
  | found (name comment tags_str : String) (d : PlaceDetails) (lat lng : ℚ)
deriving DecidableEq, Repr

def analyzeRow (api : GoogleApi) (r : CsvRow) : RowOutcome :=
  let name := rowName r
  let url := pyStrip r.url
  if name.isEmpty || url.isEmpty then .badRow
  else
    match rowLookup api name url with
    | none => .notFound name
    | some d =>
      if qFalsy d.location.latitude || qFalsy d.location.longitude then .noCoords name
      else
        .found name (pyStrip r.comment) (pyStrip r.tags) d
          (d.location.latitude.getD 0) (d.location.longitude.getD 0)

/-- Mutable state of one `import_from_google_maps_csv` request: the session
storage view plus the `results` dictionary and the tag cache. -/
structure ImportState where
  db : Db
  tag_cache : List (String × String)
  places_imported : Nat
  places_skipped : Nat
  places_failed : Nat
  tags_created : Nat
  tags_matched : Nat
  errors : List String
deriving DecidableEq, Repr

def initState (db : Db) : ImportState :=
  { db := db, tag_cache := [], places_imported := 0, places_skipped := 0,
    places_failed := 0, tags_created := 0, tags_matched := 0, errors := [] }

def ImportState.tagCtx (st : ImportState) : TagCtx :=
  { db := st.db, cache := st.tag_cache, created := st.tags_created,
    matched := st.tags_matched }

def ImportState.fail (st : ImportState) (msg : String) : ImportState :=
  { st with places_failed := st.places_failed + 1, errors := st.errors ++ [msg] }

/-- The hours string: `"; ".join(weekday_descriptions[:3])` (empty when the
service reports no opening hours). -/
def hoursString (d : PlaceDetails) : String :=
  String.intercalate "; " (d.weekdayDescriptions.take 3)

/-- The `models.Place` constructed by the tabular import loop. -/
def mkCsvPlace (user name : String) (d : PlaceDetails) (lat lng : ℚ)
    (comment : String) (tids : List String) : Place :=
  { user_id := user, name := name, address := d.formattedAddress,
    latitude := lat, longitude := lng, notes := comment,
    phone := some d.internationalPhoneNumber, website := some d.websiteUri,
    hours := some (hoursString d), is_public := true, tags := tids }

/-- One iteration of the row loop of `import_from_google_maps_csv`.  In the
source the place row is added and flushed before its tags are resolved; tag
resolution touches only the `tags` table, so the model appends the completed
place (with its association list) after resolving the tags. -/
def csvStep (api : GoogleApi) (user : String) (idx : Nat) (st : ImportState)
    (r : CsvRow) : ImportState :=
  match analyzeRow api r with
  | .badRow =>
    st.fail ("Row " ++ toString (idx + 2) ++ ": Missing name or URL")
  | .notFound name =>
    st.fail ("Row " ++ toString (idx + 2) ++ ": Could not find place '" ++ name ++
      "' via Google Places API")
  | .noCoords _ =>
    st.fail ("Row " ++ toString (idx + 2) ++ ": No coordinates found")
  | .found name comment tags_str d lat lng =>
    if is_duplicate_place st.db.places user lat lng name then
      { st with places_skipped := st.places_skipped + 1 }
    else
      let tagNames := if tags_str.isEmpty then [] else parseTags tags_str
      let res := importResolveTags user st.tagCtx tagNames
      let pl := mkCsvPlace user name d lat lng comment res.2
      { st with
          db := { res.1.db with places := res.1.db.places ++ [pl] },
          tag_cache := res.1.cache,
          tags_created := res.1.created,
          tags_matched := res.1.matched,
          places_imported := st.places_imported + 1 }

/-- The enumerated row loop (`for idx, row in enumerate(csv_reader)`). -/
def csvRunFrom (api : GoogleApi) (user : String) :
    Nat → List CsvRow → ImportState → ImportState
  | _, [], st => st
  | idx, r :: rs, st => csvRunFrom api user (idx + 1) rs (csvStep api user idx st r)

/-! ## Feature-collection (Mapstr GeoJSON) structures -/

/-- One member of `data["features"]`, restricted to the fields the pipeline
reads; `.get` defaults are already applied (`geometry` and `properties`
default to empty objects, `coordinates` to `[]`, `userComment` to an empty
string).  Each entry of `tags` is the `tag.get("name")` of one tag object. -/
structure GeoFeature where
  typ : Option String
  name : Option String
  address : Option String
  coordinates : List ℚ
  userComment : String
  tags : List (Option String)
deriving DecidableEq, Repr

/-- The top-level parsed JSON document, as far as the pipeline inspects it:
`data.get("type")` and `data.get("features", [])`. -/
structure GeoJsonDoc where
  typ : Option String
  features : List GeoFeature
deriving DecidableEq, Repr

/-- Pre-persistence analysis of one feature, shared verbatim between
`preview_geojson` and `import_from_geojson`: feature type check, required
fields check, axis order (`coordinates[0]` is longitude, `coordinates[1]`
latitude), range validation, and tag-name collection. -/
inductive FeatureOutcome where
  | notFeature
  | missingFields (shownName : String)
  | badCoords (name : String)
  | valid (name address notes : String) (lat lng : ℚ) (tagNames : List String)
deriving DecidableEq, Repr

def analyzeFeature (f : GeoFeature) : FeatureOutcome :=
  if f.typ != some "Feature" then .notFeature
  else if !strTruthy f.name || !strTruthy f.address ||
      decide (f.coordinates.length ≠ 2) then
    .missingFields (if strTruthy f.name then f.name.getD "" else "Unknown")
  else
    let longitude := f.coordinates.getD 0 0
    let latitude := f.coordinates.getD 1 0
    if !(decide ((-90 : ℚ) ≤ latitude) && decide (latitude ≤ 90)) ||
        !(decide ((-180 : ℚ) ≤ longitude) && decide (longitude ≤ 180)) then
      .badCoords (f.name.getD "")
    else
      .valid (f.name.getD "") (f.address.getD "") f.userComment latitude longitude
        ((f.tags.filterMap id).filter (fun n => !n.isEmpty))

/-- The `models.Place` constructed by `import_from_geojson` (phone, website
and hours are set to empty strings there). -/
def mkGeoPlace (user name address notes : String) (lat lng : ℚ)
    (tids : List String) : Place :=
  { user_id := user, name := name, address := address, latitude := lat,
    longitude := lng, notes := notes, phone := some "", website := some "",
    hours := some "", is_public := true, tags := tids }

/-- One iteration of the feature loop of `import_from_geojson`; invalid
features only append an error string (this path counts no failures). -/
def geoStep (user : String) (idx : Nat) (st : ImportState) (f : GeoFeature) :
    ImportState :=
  match analyzeFeature f with
  | .notFeature =>
    { st with errors := st.errors ++ ["Feature " ++ toString idx ++ ": Not a valid Feature"] }
  | .missingFields _ =>
    { st with errors := st.errors ++
        ["Feature " ++ toString idx ++ ": Missing required fields (name, address, or coordinates)"] }
  | .badCoords _ =>
    { st with errors := st.errors ++ ["Feature " ++ toString idx ++ ": Invalid coordinates"] }
  | .valid name address notes lat lng tagNames =>
    if is_duplicate_place st.db.places user lat lng name then
      { st with places_skipped := st.places_skipped + 1 }
    else
      let res := importResolveTags user st.tagCtx tagNames
      let pl := mkGeoPlace user name address notes lat lng res.2
      { st with
          db := { res.1.db with places := res.1.db.places ++ [pl] },
          tag_cache := res.1.cache,
          tags_created := res.1.created,
          tags_matched := res.1.matched,
          places_imported := st.places_imported + 1 }

/-- The enumerated feature loop of `import_from_geojson`. -/
def geoRunFrom (user : String) : Nat → List GeoFeature → ImportState → ImportState
  | _, [], st => st
  | idx, f :: fs, st => geoRunFrom user (idx + 1) fs (geoStep user idx st f)

/-! ## Preview (feature-collection path) -/

/-- The pydantic `ImportPlacePreview` schema: one candidate record as shown
to (and resubmitted by) the client. -/
structure ImportPlacePreview where
  name : String
  address : String
  latitude : ℚ
  longitude : ℚ
  notes : String
  phone : String
  website : String
  hours : String
  tags : List String
  is_duplicate : Bool
  error : Option String
deriving DecidableEq, Repr

/-- The freshly initialised `place_preview` dictionary of each iteration. -/
def emptyPreview : ImportPlacePreview :=
  { name := "", address := "", latitude := 0, longitude := 0, notes := "",
    phone := "", website := "", hours := "", tags := [], is_duplicate := false,
    error := none }

/-- The `summary` dictionary of a preview response. -/
structure PreviewSummary where
  total : Nat
  successful : Nat
  duplicates : Nat
  failed : Nat
  errors : List String
deriving DecidableEq, Repr

def initPreviewSummary : PreviewSummary :=
  { total := 0, successful := 0, duplicates := 0, failed := 0, errors := [] }

structure PreviewResult where
  places : List ImportPlacePreview
  summary : PreviewSummary
deriving DecidableEq, Repr

/-- An `HTTPException(status, detail)`. -/
structure HErr where
  status : Nat
  detail : String
deriving DecidableEq, Repr

/-- One iteration of the feature loop of `preview_geojson` (read-only). -/
def previewGeoStep (db : Db) (user : String)
    (acc : List ImportPlacePreview × PreviewSummary) (f : GeoFeature) :
    List ImportPlacePreview × PreviewSummary :=
  let s0 := { acc.2 with total := acc.2.total + 1 }
  match analyzeFeature f with
  | .notFeature =>
    (acc.1 ++ [{ emptyPreview with error := some "Not a valid Feature" }],
     { s0 with failed := s0.failed + 1 })
  | .missingFields shownName =>
    (acc.1 ++
      [{ emptyPreview with
           name := shownName,
           error := some "Missing required fields (name, address, or coordinates)" }],
     { s0 with failed := s0.failed + 1 })
  | .badCoords name =>
    (acc.1 ++ [{ emptyPreview with name := name, error := some "Invalid coordinates" }],
     { s0 with failed := s0.failed + 1 })
  | .valid name address notes lat lng tagNames =>
    let dup := is_duplicate_place db.places user lat lng name
    (acc.1 ++
      [{ emptyPreview with
           name := name, address := address,
           latitude := lat, longitude := lng, notes := notes, tags := tagNames,
           is_duplicate := dup }],
     { s0 with successful := s0.successful + 1,
               duplicates := if dup then s0.duplicates + 1 else s0.duplicates })

/-- `preview_geojson`: envelope validation, then the best-effort per-feature
loop; never writes to storage. -/
def preview_geojson (user : String) (doc : GeoJsonDoc) (db : Db) :
    Except HErr PreviewResult :=
  if doc.typ != some "FeatureCollection" then
    Except.error { status := 400, detail := "Invalid GeoJSON: must be a FeatureCollection" }
  else if doc.features.isEmpty then
    Except.error { status := 400, detail := "No features found in GeoJSON" }
  else
    let res := doc.features.foldl (previewGeoStep db user) ([], initPreviewSummary)
    Except.ok { places := res.1, summary := res.2 }

/-! ## Confirm (`confirm_import`) -/

/-- The `models.Place` constructed by `confirm_import` (empty optional strings
are stored as NULL there: `place_data.phone or None`). -/
def mkConfirmPlace (user : String) (r : ImportPlacePreview) (tids : List String) :
    Place :=
  { user_id := user, name := r.name, address := r.address, latitude := r.latitude,
    longitude := r.longitude, notes := r.notes,
    phone := if r.phone.isEmpty then none else some r.phone,
    website := if r.website.isEmpty then none else some r.website,
    hours := if r.hours.isEmpty then none else some r.hours,
    is_public := true, tags := tids }

/-- One iteration of the record loop of `confirm_import`:
skip when `error` is set and the name is empty; skip (with a reason string)
when latitude, longitude or name is falsy; re-run duplicate detection and
skip on a hit; otherwise persist the place and resolve its tags. -/
def confirmStep (user : String) (st : ImportState) (r : ImportPlacePreview) :
    ImportState :=
  if r.error.isSome && r.name.isEmpty then
    { st with places_skipped := st.places_skipped + 1 }
  else if r.latitude == 0 || r.longitude == 0 || r.name.isEmpty then
    { st with places_skipped := st.places_skipped + 1,
              errors := st.errors ++ ["Skipped '" ++ r.name ++ "': missing required fields"] }
  else if is_duplicate_place st.db.places user r.latitude r.longitude r.name then
    { st with places_skipped := st.places_skipped + 1,
              errors := st.errors ++ ["Skipped '" ++ r.name ++ "': duplicate"] }
  else
    let res := confirmResolveTags user st.tagCtx r.tags
    let pl := mkConfirmPlace user r res.2
    { st with
        db := { res.1.db with places := res.1.db.places ++ [pl] },
        tag_cache := res.1.cache,
        tags_created := res.1.created,
        tags_matched := res.1.matched,
        places_imported := st.places_imported + 1 }

/-- The record loop of `confirm_import`. -/
def confirmLoop (user : String) : List ImportPlacePreview → ImportState → ImportState
  | [], st => st
  | r :: rs, st => confirmLoop user rs (confirmStep user st r)

/-! ## Endpoint wrappers: single commit per batch -/

/-- The `summary` dictionary of a Confirm / one-shot Import response
(`places_failed` is present only on the tabular path). -/
structure ImportSummary where
  places_imported : Nat
  places_skipped : Nat
  places_failed : Option Nat
  tags_created : Nat
  tags_matched : Nat
  errors : List String
deriving DecidableEq, Repr

def ImportState.csvSummary (st : ImportState) : ImportSummary :=
  { places_imported := st.places_imported, places_skipped := st.places_skipped,
    places_failed := some st.places_failed, tags_created := st.tags_created,
    tags_matched := st.tags_matched, errors := st.errors }

def ImportState.geoSummary (st : ImportState) : ImportSummary :=
  { places_imported := st.places_imported, places_skipped := st.places_skipped,
    places_failed := none, tags_created := st.tags_created,
    tags_matched := st.tags_matched, errors := st.errors }

/-- `import_from_google_maps_csv(content, user_id, db)`.  `decodeOk` models
whether `content.decode("utf-8")` succeeds; `commitOk` models whether the
single `db.commit()` at the end of the batch succeeds.  The returned `Db` is
the committed storage state: a failed commit publishes nothing and the
exception propagates (the framework closes, hence rolls back, the session). -/
def import_from_google_maps_csv (api : GoogleApi) (user : String)
    (decodeOk : Bool) (rows : List CsvRow) (db : Db) (commitOk : Bool) :
    Except HErr ImportSummary × Db :=
  if !decodeOk then
    (Except.error { status := 400, detail := "Failed to parse CSV" }, db)
  else
    let fin := csvRunFrom api user 0 rows (initState db)
    if commitOk then (Except.ok fin.csvSummary, fin.db)
    else (Except.error { status := 500, detail := "Failed to save import" }, db)

/-- `import_from_geojson(data, user_id, db)`: envelope validation (fatal 400
before any per-feature work), the feature loop, then one commit. -/
def import_from_geojson (user : String) (doc : GeoJsonDoc) (db : Db)
    (commitOk : Bool) : Except HErr ImportSummary × Db :=
  if doc.typ != some "FeatureCollection" then
    (Except.error { status := 400, detail := "Invalid GeoJSON: must be a FeatureCollection" }, db)
  else if doc.features.isEmpty then
    (Except.error { status := 400, detail := "No features found in GeoJSON" }, db)
  else
    let fin := geoRunFrom user 0 doc.features (initState db)
    if commitOk then (Except.ok fin.geoSummary, fin.db)
    else (Except.error { status := 500, detail := "Failed to save import" }, db)

/-- `confirm_import(confirm_request, ...)`: the record loop followed by one
commit; a failed commit is rolled back explicitly and reported as a single
`HTTPException(500, ...)`. -/
def confirm_import (user : String) (records : List ImportPlacePreview) (db : Db)
    (commitOk : Bool) : Except HErr ImportSummary × Db :=
  let fin := confirmLoop user records (initState db)
  if commitOk then (Except.ok fin.geoSummary, fin.db)
  else (Except.error { status := 500, detail := "Failed to save import" }, db)

/-! ## One-shot Import endpoint: format dispatch -/

/-- What `json.loads(content)` yields, as far as the endpoint inspects it:
either a decode failure, or a parsed document. -/
inductive FileJson where
  | notJson
  | doc (d : GeoJsonDoc)
deriving DecidableEq, Repr

/-- An uploaded file, carrying the outcomes of the three ways the endpoint
may interpret its bytes. -/
structure UploadFile where
  filename : Option String
  json : FileJson
  decodeOk : Bool
  csvRows : List CsvRow
deriving Repr

/-- `POST /data/import` (`import_data`): `.csv` filenames go straight to the
tabular importer; otherwise JSON parsing is attempted first, a parsed
feature collection goes to the GeoJSON importer, parsed non-feature-collection
JSON is a 400, and only a JSON decode failure falls back to the tabular
importer (whose own failure is converted to a 400 by the bare `except`). -/
def import_data (api : GoogleApi) (user : String) (f : UploadFile) (db : Db)
    (commitOk : Bool) : Except HErr ImportSummary × Db :=
  if hasCsvExt f.filename then
    import_from_google_maps_csv api user f.decodeOk f.csvRows db commitOk
  else
    match f.json with
    | FileJson.doc d =>
      if d.typ == some "FeatureCollection" then import_from_geojson user d db commitOk
      else (Except.error { status := 400, detail := "Unrecognized JSON format" }, db)
    | FileJson.notJson =>
      match import_from_google_maps_csv api user f.decodeOk f.csvRows db commitOk with
      | (Except.error _, db') =>
        (Except.error
          { status := 400,
            detail := "Unrecognized file format. Expected CSV (Google Maps) or GeoJSON (Mapstr)" },
         db')
      | ok => ok

/-- Modelled from the spec: the content-sniffing order that sentence 4.5 of
the spec claims for `import_data` — on a missing or wrong extension "attempt
tabular parsing, and only if that also fails attempt JSON/feature-collection
parsing".  Tabular parsing fails exactly when the byte decode fails. -/
def import_data_claimed_order (api : GoogleApi) (user : String) (f : UploadFile)
    (db : Db) (commitOk : Bool) : Except HErr ImportSummary × Db :=
  if hasCsvExt f.filename then
    import_from_google_maps_csv api user f.decodeOk f.csvRows db commitOk
  else if f.decodeOk then
    import_from_google_maps_csv api user f.decodeOk f.csvRows db commitOk
  else
    match f.json with
    | FileJson.doc d =>
      if d.typ == some "FeatureCollection" then import_from_geojson user d db commitOk
      else (Except.error { status := 400, detail := "Unrecognized JSON format" }, db)
    | FileJson.notJson =>
      (Except.error
        { status := 400,
          detail := "Unrecognized file format. Expected CSV (Google Maps) or GeoJSON (Mapstr)" },
       db)

/-- Imported-count of a response (0 for a request-level error). -/
def respImported : Except HErr ImportSummary → Nat
  | Except.ok s => s.places_imported
  | Except.error _ => 0

/-! ## Structural lemmas: every step only appends places, and each appended
place is public -/

theorem csvStep_places (api : GoogleApi) (user : String) (idx : Nat)
    (st : ImportState) (r : CsvRow) :
    ∃ l, (csvStep api user idx st r).db.places = st.db.places ++ l ∧
      ∀ p ∈ l, p.is_public = true := by
  rcases ha : analyzeRow api r with _ | name | name | ⟨name, comment, tags_str, d, lat, lng⟩
  · exact ⟨[], by simp [csvStep, ha, ImportState.fail], by simp⟩
  · exact ⟨[], by simp [csvStep, ha, ImportState.fail], by simp⟩
  · exact ⟨[], by simp [csvStep, ha, ImportState.fail], by simp⟩
  · by_cases hdup : is_duplicate_place st.db.places user lat lng name = true
    · exact ⟨[], by simp [csvStep, ha, hdup], by simp⟩
    · refine ⟨[mkCsvPlace user name d lat lng comment
        (importResolveTags user st.tagCtx
          (if tags_str.isEmpty then [] else parseTags tags_str)).2], ?_, ?_⟩
      · simp only [csvStep, ha, hdup, Bool.false_eq_true, if_false,
          importResolveTags_places]
        rfl
      · intro p hp
        rw [List.mem_singleton] at hp
        subst hp
        rfl

theorem geoStep_places (user : String) (idx : Nat) (st : ImportState)
    (f : GeoFeature) :
    ∃ l, (geoStep user idx st f).db.places = st.db.places ++ l ∧
      ∀ p ∈ l, p.is_public = true := by
  rcases ha : analyzeFeature f with _ | n | n | ⟨name, address, notes, lat, lng, tagNames⟩
  · exact ⟨[], by simp [geoStep, ha], by simp⟩
  · exact ⟨[], by simp [geoStep, ha], by simp⟩
  · exact ⟨[], by simp [geoStep, ha], by simp⟩
  · by_cases hdup : is_duplicate_place st.db.places user lat lng name = true
    · exact ⟨[], by simp [geoStep, ha, hdup], by simp⟩
    · refine ⟨[mkGeoPlace user name address notes lat lng
        (importResolveTags user st.tagCtx tagNames).2], ?_, ?_⟩
      · simp only [geoStep, ha, hdup, Bool.false_eq_true, if_false,
          importResolveTags_places]
        rfl
      · intro p hp
        rw [List.mem_singleton] at hp
        subst hp
        rfl

theorem confirmStep_places (user : String) (st : ImportState)
    (r : ImportPlacePreview) :
    ∃ l, (confirmStep user st r).db.places = st.db.places ++ l ∧
      ∀ p ∈ l, p.is_public = true := by
  unfold confirmStep
  split
  · exact ⟨[], by simp, by simp⟩
  · split
    · exact ⟨[], by simp, by simp⟩
    · split
      · exact ⟨[], by simp, by simp⟩
      · refine ⟨[mkConfirmPlace user r (confirmResolveTags user st.tagCtx r.tags).2], ?_, ?_⟩
        · simp only [confirmResolveTags_places]
          rfl
        · intro p hp
          rw [List.mem_singleton] at hp
          subst hp
          rfl

theorem csvRunFrom_places (api : GoogleApi) (user : String) (rows : List CsvRow) :
    ∀ (idx : Nat) (st : ImportState),
      ∃ l, (csvRunFrom api user idx rows st).db.places = st.db.places ++ l ∧
        ∀ p ∈ l, p.is_public = true := by
  induction rows with
  | nil => intro idx st; exact ⟨[], by simp [csvRunFrom], by simp⟩
  | cons r rs ih =>
    intro idx st
    obtain ⟨l1, h1, hp1⟩ := csvStep_places api user idx st r
    obtain ⟨l2, h2, hp2⟩ := ih (idx + 1) (csvStep api user idx st r)
    refine ⟨l1 ++ l2, ?_, ?_⟩
    · show (csvRunFrom api user (idx + 1) rs (csvStep api user idx st r)).db.places = _
      rw [h2, h1, List.append_assoc]
    · intro p hp
      rcases List.mem_append.1 hp with hp | hp
      · exact hp1 p hp
      · exact hp2 p hp

theorem csvRunFrom_places_subset (api : GoogleApi) (user : String)
    (rows : List CsvRow) (idx : Nat) (st : ImportState) :
    ∀ p ∈ st.db.places, p ∈ (csvRunFrom api user idx rows st).db.places := by
  intro p hp
  obtain ⟨l, hl, -⟩ := csvRunFrom_places api user rows idx st
  rw [hl]
  exact List.mem_append_left _ hp

theorem geoRunFrom_places (user : String) (fs : List GeoFeature) :
    ∀ (idx : Nat) (st : ImportState),
      ∃ l, (geoRunFrom user idx fs st).db.places = st.db.places ++ l ∧
        ∀ p ∈ l, p.is_public = true := by
  induction fs with
  | nil => intro idx st; exact ⟨[], by simp [geoRunFrom], by simp⟩
  | cons f fs ih =>
    intro idx st
    obtain ⟨l1, h1, hp1⟩ := geoStep_places user idx st f
    obtain ⟨l2, h2, hp2⟩ := ih (idx + 1) (geoStep user idx st f)
    refine ⟨l1 ++ l2, ?_, ?_⟩
    · show (geoRunFrom user (idx + 1) fs (geoStep user idx st f)).db.places = _
      rw [h2, h1, List.append_assoc]
    · intro p hp
      rcases List.mem_append.1 hp with hp | hp
      · exact hp1 p hp
      · exact hp2 p hp

theorem confirmLoop_places (user : String) (rs : List ImportPlacePreview) :
    ∀ st : ImportState,
      ∃ l, (confirmLoop user rs st).db.places = st.db.places ++ l ∧
        ∀ p ∈ l, p.is_public = true := by
  induction rs with
  | nil => intro st; exact ⟨[], by simp [confirmLoop], by simp⟩
  | cons r rs ih =>
    intro st
    obtain ⟨l1, h1, hp1⟩ := confirmStep_places user st r
    obtain ⟨l2, h2, hp2⟩ := ih (confirmStep user st r)
    refine ⟨l1 ++ l2, ?_, ?_⟩
    · show (confirmLoop user rs (confirmStep user st r)).db.places = _
      rw [h2, h1, List.append_assoc]
    · intro p hp
      rcases List.mem_append.1 hp with hp | hp
      · exact hp1 p hp
      · exact hp2 p hp

/-! ## Absorption: a second identical run against a storage state that already
contains everything the first run produced imports nothing -/

theorem csvStep_absorb (api : GoogleApi) (user : String) (i j : Nat)
    (st st' : ImportState) (r : CsvRow)
    (h : ∀ p, p ∈ (csvStep api user i st r).db.places → p ∈ st'.db.places) :
    (csvStep api user j st' r).db = st'.db ∧
    (csvStep api user j st' r).places_imported = st'.places_imported := by
  rcases ha : analyzeRow api r with _ | name | name | ⟨name, comment, tags_str, d, lat, lng⟩
  · exact ⟨by simp [csvStep, ha, ImportState.fail], by simp [csvStep, ha, ImportState.fail]⟩
  · exact ⟨by simp [csvStep, ha, ImportState.fail], by simp [csvStep, ha, ImportState.fail]⟩
  · exact ⟨by simp [csvStep, ha, ImportState.fail], by simp [csvStep, ha, ImportState.fail]⟩
  · have hdup' : is_duplicate_place st'.db.places user lat lng name = true := by
      by_cases hdup : is_duplicate_place st.db.places user lat lng name = true
      · refine is_duplicate_mono ?_ hdup
        intro p hp
        apply h
        simp [csvStep, ha, hdup, hp]
      · have hmem : mkCsvPlace user name d lat lng comment
            (importResolveTags user st.tagCtx
              (if tags_str.isEmpty then [] else parseTags tags_str)).2
            ∈ (csvStep api user i st r).db.places := by
          simp [csvStep, ha, hdup]
        exact is_duplicate_of_mem (h _ hmem) user lat lng name
          (dupPred_self user lat lng name _ rfl rfl rfl rfl)
    exact ⟨by simp [csvStep, ha, hdup'], by simp [csvStep, ha, hdup']⟩

theorem csvRunFrom_absorb (api : GoogleApi) (user : String) (rows : List CsvRow) :
    ∀ (i j : Nat) (st st' : ImportState),
      (∀ p, p ∈ (csvRunFrom api user i rows st).db.places → p ∈ st'.db.places) →
      (csvRunFrom api user j rows st').db = st'.db ∧
      (csvRunFrom api user j rows st').places_imported = st'.places_imported := by
  induction rows with
  | nil => intro i j st st' h; exact ⟨rfl, rfl⟩
  | cons r rs ih =>
    intro i j st st' h
    have hrun : csvRunFrom api user i (r :: rs) st
        = csvRunFrom api user (i + 1) rs (csvStep api user i st r) := rfl
    rw [hrun] at h
    have h1 : ∀ p, p ∈ (csvStep api user i st r).db.places → p ∈ st'.db.places :=
      fun p hp => h p (csvRunFrom_places_subset api user rs (i + 1) _ p hp)
    obtain ⟨hdb, himp⟩ := csvStep_absorb api user i j st st' r h1
    have h2 : ∀ p, p ∈ (csvRunFrom api user (i + 1) rs (csvStep api user i st r)).db.places →
        p ∈ (csvStep api user j st' r).db.places := by
      intro p hp
      rw [hdb]
      exact h p hp
    obtain ⟨hdb2, himp2⟩ := ih (i + 1) (j + 1) _ _ h2
    refine ⟨?_, ?_⟩
    · show (csvRunFrom api user (j + 1) rs (csvStep api user j st' r)).db = st'.db
      rw [hdb2, hdb]
    · show (csvRunFrom api user (j + 1) rs (csvStep api user j st' r)).places_imported = _
      rw [himp2, himp]

theorem geoRunFrom_places_subset (user : String) (fs : List GeoFeature)
    (idx : Nat) (st : ImportState) :
    ∀ p ∈ st.db.places, p ∈ (geoRunFrom user idx fs st).db.places := by
  intro p hp
  obtain ⟨l, hl, -⟩ := geoRunFrom_places user fs idx st
  rw [hl]
  exact List.mem_append_left _ hp

theorem geoStep_absorb (user : String) (i j : Nat) (st st' : ImportState)
    (f : GeoFeature)
    (h : ∀ p, p ∈ (geoStep user i st f).db.places → p ∈ st'.db.places) :
    (geoStep user j st' f).db = st'.db ∧
    (geoStep user j st' f).places_imported = st'.places_imported := by
  rcases ha : analyzeFeature f with _ | n | n | ⟨name, address, notes, lat, lng, tagNames⟩
  · exact ⟨by simp [geoStep, ha], by simp [geoStep, ha]⟩
  · exact ⟨by simp [geoStep, ha], by simp [geoStep, ha]⟩
  · exact ⟨by simp [geoStep, ha], by simp [geoStep, ha]⟩
  · have hdup' : is_duplicate_place st'.db.places user lat lng name = true := by
      by_cases hdup : is_duplicate_place st.db.places user lat lng name = true
      · refine is_duplicate_mono ?_ hdup
        intro p hp
        apply h
        simp [geoStep, ha, hdup, hp]
      · have hmem : mkGeoPlace user name address notes lat lng
            (importResolveTags user st.tagCtx tagNames).2
            ∈ (geoStep user i st f).db.places := by
          simp [geoStep, ha, hdup]
        exact is_duplicate_of_mem (h _ hmem) user lat lng name
          (dupPred_self user lat lng name _ rfl rfl rfl rfl)
    exact ⟨by simp [geoStep, ha, hdup'], by simp [geoStep, ha, hdup']⟩

theorem geoRunFrom_absorb (user : String) (fs : List GeoFeature) :
    ∀ (i j : Nat) (st st' : ImportState),
      (∀ p, p ∈ (geoRunFrom user i fs st).db.places → p ∈ st'.db.places) →
      (geoRunFrom user j fs st').db = st'.db ∧
      (geoRunFrom user j fs st').places_imported = st'.places_imported := by
  induction fs with
  | nil => intro i j st st' h; exact ⟨rfl, rfl⟩
  | cons f fs ih =>
    intro i j st st' h
    have hrun : geoRunFrom user i (f :: fs) st
        = geoRunFrom user (i + 1) fs (geoStep user i st f) := rfl
    rw [hrun] at h
    have h1 : ∀ p, p ∈ (geoStep user i st f).db.places → p ∈ st'.db.places :=
      fun p hp => h p (geoRunFrom_places_subset user fs (i + 1) _ p hp)
    obtain ⟨hdb, himp⟩ := geoStep_absorb user i j st st' f h1
    have h2 : ∀ p, p ∈ (geoRunFrom user (i + 1) fs (geoStep user i st f)).db.places →
        p ∈ (geoStep user j st' f).db.places := by
      intro p hp
      rw [hdb]
      exact h p hp
    obtain ⟨hdb2, himp2⟩ := ih (i + 1) (j + 1) _ _ h2
    refine ⟨?_, ?_⟩
    · show (geoRunFrom user (j + 1) fs (geoStep user j st' f)).db = st'.db
      rw [hdb2, hdb]
    · show (geoRunFrom user (j + 1) fs (geoStep user j st' f)).places_imported = _
      rw [himp2, himp]

/-- Running the tabular importer twice on the same input (committed both
times) publishes nothing new the second time. -/
theorem csv_import_twice (api : GoogleApi) (user : String) (decodeOk : Bool)
    (rows : List CsvRow) (db : Db) :
    (import_from_google_maps_csv api user decodeOk rows
        (import_from_google_maps_csv api user decodeOk rows db true).2 true).2
      = (import_from_google_maps_csv api user decodeOk rows db true).2 ∧
    respImported (import_from_google_maps_csv api user decodeOk rows
        (import_from_google_maps_csv api user decodeOk rows db true).2 true).1 = 0 := by
  by_cases hd : decodeOk = true
  · subst hd
    obtain ⟨hdb, himp⟩ := csvRunFrom_absorb api user rows 0 0 (initState db)
      (initState ((csvRunFrom api user 0 rows (initState db)).db)) (fun p hp => hp)
    constructor
    · simp only [import_from_google_maps_csv, Bool.not_true, Bool.false_eq_true, if_false,
        if_true]
      exact hdb
    · simp only [import_from_google_maps_csv, Bool.not_true, Bool.false_eq_true, if_false,
        if_true, respImported, ImportState.csvSummary]
      exact himp
  · rw [Bool.not_eq_true] at hd
    subst hd
    simp [import_from_google_maps_csv, respImported]

/-- Running the GeoJSON importer twice on the same document (committed both
times) publishes nothing new the second time. -/
theorem geo_import_twice (user : String) (doc : GeoJsonDoc) (db : Db) :
    (import_from_geojson user doc
        (import_from_geojson user doc db true).2 true).2
      = (import_from_geojson user doc db true).2 ∧
    respImported (import_from_geojson user doc
        (import_from_geojson user doc db true).2 true).1 = 0 := by
  by_cases ht : doc.typ = some "FeatureCollection"
  · by_cases hf : doc.features.isEmpty = true
    · simp [import_from_geojson, ht, hf, respImported]
    · obtain ⟨hdb, himp⟩ := geoRunFrom_absorb user doc.features 0 0 (initState db)
        (initState ((geoRunFrom user 0 doc.features (initState db)).db)) (fun p hp => hp)
      constructor
      · simp only [import_from_geojson, ht, bne_self_eq_false, Bool.false_eq_true, if_false,
          hf, if_true]
        exact hdb
      · simp only [import_from_geojson, ht, bne_self_eq_false, Bool.false_eq_true, if_false,
          hf, if_true, respImported, ImportState.geoSummary]
        exact himp
  · have : (doc.typ != some "FeatureCollection") = true := by
      simp [bne_iff_ne, ht]
    simp [import_from_geojson, this, respImported]

/-- C4: Running one-shot Import twice with the same file for the same user
(the external lookup service answering identically both times, as it is a
fixed oracle) yields zero new Places on the second run, and the storage state
after the second run equals the storage state after the first run, so in
particular the tag set of the user is identical after both runs. -/
theorem C4_theorem (api : GoogleApi) (user : String) (f : UploadFile) (db : Db) :
    (import_data api user f (import_data api user f db true).2 true).2
      = (import_data api user f db true).2 ∧
    respImported (import_data api user f (import_data api user f db true).2 true).1 = 0 := by
  by_cases hcsv : hasCsvExt f.filename = true
  · simp only [import_data, hcsv, if_true]
    exact csv_import_twice api user f.decodeOk f.csvRows db
  · rcases hj : f.json with _ | d
    · obtain ⟨h2, h0⟩ := csv_import_twice api user f.decodeOk f.csvRows db
      simp only [import_data, hcsv, Bool.false_eq_true, if_false, hj]
      rcases hc1 : import_from_google_maps_csv api user f.decodeOk f.csvRows db true
        with ⟨e1, db1⟩
      rw [hc1] at h2 h0
      rcases e1 with err1 | ok1
      · rcases hc2 : import_from_google_maps_csv api user f.decodeOk f.csvRows db1 true
          with ⟨e2, db2⟩
        rw [hc2] at h2 h0
        rcases e2 with err2 | ok2
        · simpa [respImported] using h2
        · have h2x : db2 = db1 := h2
          simp only [respImported] at h0
          simp [respImported, h2x, h0]
      · rcases hc2 : import_from_google_maps_csv api user f.decodeOk f.csvRows db1 true
          with ⟨e2, db2⟩
        rw [hc2] at h2 h0
        rcases e2 with err2 | ok2
        · simpa [respImported] using h2
        · have h2x : db2 = db1 := h2
          simp only [respImported] at h0
          simp [respImported, h2x, h0]
    · by_cases hfc : (d.typ == some "FeatureCollection") = true
      · simp only [import_data, hcsv, Bool.false_eq_true, if_false, hj, hfc, if_true]
        exact geo_import_twice user d db
      · simp [import_data, hcsv, hj, hfc, respImported]

/-! ## Claim C1 -/

/-- Record used to falsify claim C1: its `error` field is set, but it carries
a non-empty name and usable coordinates. -/
def rErrC1 : ImportPlacePreview :=
  { name := "Oops", address := "A", latitude := 1, longitude := 2, notes := "",
    phone := "", website := "", hours := "", tags := [], is_duplicate := false,
    error := some "Could not find place via Google Places API" }

/-- C1, counterexample: Confirm persists a CandidateRecord whose `error` field
is non-null, because the skip condition fires only when the name is empty as
well (`if place_data.error and not place_data.name`).  On an empty storage the
record below, with `error` set, yields one created Place. -/
theorem C1_counterexample :
    rErrC1.error.isSome = true ∧
    (confirm_import "u" [rErrC1] emptyDb true).2.places.map Place.name = ["Oops"] ∧
    respImported (confirm_import "u" [rErrC1] emptyDb true).1 = 1 :=
  ⟨rfl, rfl, rfl⟩

/-- C1 (amended): Confirm never creates a Place from a CandidateRecord whose
`error` field is non-null AND whose name is empty; such a record is skipped
outright.  (A record with `error` set but a non-empty name is treated as
user-edited and goes through the normal validation, duplicate-check and
persistence steps.) -/
theorem C1_theorem (user : String) (st : ImportState) (r : ImportPlacePreview)
    (h1 : r.error.isSome = true) (h2 : r.name.isEmpty = true) :
    confirmStep user st r = { st with places_skipped := st.places_skipped + 1 } := by
  simp [confirmStep, h1, h2]

def rBadC1 : ImportPlacePreview := { emptyPreview with error := some "parse error" }

theorem C1_witness :
    confirmStep "u" (initState emptyDb) rBadC1
      = { initState emptyDb with places_skipped := 0 + 1 } :=
  C1_theorem "u" (initState emptyDb) rBadC1 rfl rfl

/-! ## Claim C2 -/

/-- Modelled from the spec words of claim C2: some existing Place of the same
owner lies strictly within 0.0001 degrees on both axes and has a
case-insensitively equal name. -/
def is_duplicate_spec (places : List Place) (user : String) (lat lng : ℚ)
    (name : String) : Prop :=
  ∃ p ∈ places, p.user_id = user ∧ |p.latitude - lat| < threshold ∧
    |p.longitude - lng| < threshold ∧ lowerChars p.name = lowerChars name

/-- A place sitting exactly on the tolerance boundary. -/
def pBoundary : Place :=
  { user_id := "u", name := "Cafe", address := "A", latitude := 1 / 10000,
    longitude := 0, notes := "", phone := none, website := none, hours := none,
    is_public := true, tags := [] }

/-- C2, counterexample: at a latitude difference of exactly 0.0001 degrees the
SQL `BETWEEN` of `is_duplicate_place` is inclusive, so the function returns
true although the claimed strict condition fails. -/
theorem C2_counterexample :
    is_duplicate_place [pBoundary] "u" 0 0 "Cafe" = true ∧
    ¬ is_duplicate_spec [pBoundary] "u" 0 0 "Cafe" := by
  constructor
  · refine is_duplicate_of_mem (List.mem_singleton.2 rfl) "u" 0 0 "Cafe" ?_
    simp only [dupPred, pBoundary, ilike_self, Bool.and_true, beq_self_eq_true,
      true_and, Bool.and_eq_true, decide_eq_true_eq]
    norm_num [threshold]
  · rintro ⟨p, hp, -, hlat, -, -⟩
    rw [List.mem_singleton] at hp
    subst hp
    simp only [pBoundary, threshold, sub_zero] at hlat
    rw [abs_of_pos (by norm_num)] at hlat
    exact lt_irrefl _ hlat

theorem dupPred_iff (user : String) (lat lng : ℚ) (name : String) (p : Place)
    (hw : noWildcards name = true) :
    dupPred user lat lng name p = true ↔
      p.user_id = user ∧ |p.latitude - lat| ≤ threshold ∧
      |p.longitude - lng| ≤ threshold ∧ lowerChars p.name = lowerChars name := by
  unfold dupPred
  rw [Bool.and_eq_true, Bool.and_eq_true, Bool.and_eq_true, Bool.and_eq_true,
    Bool.and_eq_true]
  rw [beq_iff_eq, decide_eq_true_eq, decide_eq_true_eq, decide_eq_true_eq,
    decide_eq_true_eq, ilike_eq_of_noWild hw]
  constructor
  · rintro ⟨⟨⟨hu, hlat1, hlat2⟩, hlng1, hlng2⟩, hn⟩
    refine ⟨hu, ?_, ?_, hn.symm⟩
    · rw [abs_sub_le_iff]; constructor <;> linarith
    · rw [abs_sub_le_iff]; constructor <;> linarith
  · rintro ⟨hu, hlat, hlng, hn⟩
    rw [abs_sub_le_iff] at hlat hlng
    exact ⟨⟨⟨hu, by linarith [hlat.1, hlat.2], by linarith [hlat.1, hlat.2]⟩,
      by linarith [hlng.1, hlng.2], by linarith [hlng.1, hlng.2]⟩, hn.symm⟩

/-- C2 (amended): for candidate names free of SQL wildcard characters,
`is_duplicate_place` returns true exactly when some existing Place owned by
that user lies within 0.0001 degrees on both axes INCLUSIVE (the SQL BETWEEN
bound) and has a case-insensitively equal name; if either condition fails for
every owned place, it returns false. -/
theorem C2_theorem (places : List Place) (user : String) (lat lng : ℚ)
    (name : String) (hw : noWildcards name = true) :
    is_duplicate_place places user lat lng name = true ↔
      ∃ p ∈ places, p.user_id = user ∧ |p.latitude - lat| ≤ threshold ∧
        |p.longitude - lng| ≤ threshold ∧ lowerChars p.name = lowerChars name := by
  unfold is_duplicate_place
  rw [List.any_eq_true]
  constructor
  · rintro ⟨p, hp, hpred⟩
    exact ⟨p, hp, (dupPred_iff user lat lng name p hw).1 hpred⟩
  · rintro ⟨p, hp, hcond⟩
    exact ⟨p, hp, (dupPred_iff user lat lng name p hw).2 hcond⟩

theorem C2_witness :
    is_duplicate_place [pBoundary] "u" 0 0 "Cafe" = true ↔
      ∃ p ∈ [pBoundary], p.user_id = "u" ∧ |p.latitude - 0| ≤ threshold ∧
        |p.longitude - 0| ≤ threshold ∧ lowerChars p.name = lowerChars "Cafe" :=
  C2_theorem [pBoundary] "u" 0 0 "Cafe" (by decide)

/-! ## Claim C3 -/

/-- An oracle that never answers (its answers are irrelevant to dispatch). -/
def apiNone : GoogleApi := { byId := fun _ => none, byText := fun _ => none }

/-- A single well-formed feature used by several concrete runs. -/
def cafeFeature : GeoFeature :=
  { typ := some "Feature", name := some "Cafe X", address := some "1 Main St",
    coordinates := [-73.99, 40.75], userComment := "", tags := [] }

def cafeDoc : GeoJsonDoc := { typ := some "FeatureCollection", features := [cafeFeature] }

/-- A file without a `.csv` extension whose bytes decode fine (so tabular
parsing would succeed, producing zero rows) and also parse as a JSON feature
collection with one importable feature. -/
def fBoth : UploadFile :=
  { filename := some "data.txt", json := FileJson.doc cafeDoc, decodeOk := true,
    csvRows := [] }

/-- C3, counterexample: on a wrong extension the endpoint attempts JSON
parsing first, not tabular parsing.  On a file that both decodes (tabular
parsing succeeds with zero rows) and parses as a feature collection, the code
imports the feature (1 place); the claimed tabular-first order would import
nothing. -/
theorem C3_counterexample :
    respImported (import_data apiNone "u" fBoth emptyDb true).1 = 1 ∧
    respImported (import_data_claimed_order apiNone "u" fBoth emptyDb true).1 = 0 ∧
    import_data apiNone "u" fBoth emptyDb true
      ≠ import_data_claimed_order apiNone "u" fBoth emptyDb true := by
  refine ⟨by with_unfolding_all decide, by with_unfolding_all decide, ?_⟩
  intro h
  have := congrArg (fun r => respImported r.1) h
  simp only at this
  rw [show respImported (import_data apiNone "u" fBoth emptyDb true).1 = 1 from
    by with_unfolding_all decide] at this
  rw [show respImported (import_data_claimed_order apiNone "u" fBoth emptyDb true).1 = 0 from
    by with_unfolding_all decide] at this
  exact absurd this (by decide)

/-- C3 (amended): when the filename extension is missing or wrong, the
endpoint attempts JSON parsing FIRST: if the content parses as JSON the
result is decided by the JSON branch alone (independent of what tabular
parsing would yield), and only if JSON parsing fails does it attempt tabular
(CSV) parsing, whose request-level failure is reported as an unrecognized
format. -/
theorem C3_theorem (api : GoogleApi) (user : String) (f : UploadFile) (db : Db)
    (ok : Bool) (hext : hasCsvExt f.filename = false) :
    (∀ d, f.json = FileJson.doc d → ∀ rows rows',
        import_data api user { f with csvRows := rows } db ok
          = import_data api user { f with csvRows := rows' } db ok) ∧
    (f.json = FileJson.notJson →
        import_data api user f db ok
          = match import_from_google_maps_csv api user f.decodeOk f.csvRows db ok with
            | (Except.error _, db') =>
              (Except.error
                { status := 400,
                  detail := "Unrecognized file format. Expected CSV (Google Maps) or GeoJSON (Mapstr)" },
               db')
            | r => r) := by
  constructor
  · intro d hd rows rows'
    simp [import_data, hext, hd]
  · intro hj
    simp [import_data, hext, hj]

theorem C3_witness :
    (∀ d, fBoth.json = FileJson.doc d → ∀ rows rows',
        import_data apiNone "u" { fBoth with csvRows := rows } emptyDb true
          = import_data apiNone "u" { fBoth with csvRows := rows' } emptyDb true) ∧
    (fBoth.json = FileJson.notJson →
        import_data apiNone "u" fBoth emptyDb true
          = match import_from_google_maps_csv apiNone "u" fBoth.decodeOk fBoth.csvRows emptyDb true with
            | (Except.error _, db') =>
              (Except.error
                { status := 400,
                  detail := "Unrecognized file format. Expected CSV (Google Maps) or GeoJSON (Mapstr)" },
               db')
            | r => r) :=
  C3_theorem apiNone "u" fBoth emptyDb true (by decide)

/-! ## Claim C5 -/

/-- Two import states that agree on everything observable by later loop
iterations (storage, tag cache, counters) except that the first has `k` more
recorded failures; the per-row error strings (which embed row numbers and are
never read back by the loop) are unconstrained. -/
def eqUpToFailures (k : Nat) (st st' : ImportState) : Prop :=
  st.db = st'.db ∧ st.tag_cache = st'.tag_cache ∧
  st.places_imported = st'.places_imported ∧
  st.places_skipped = st'.places_skipped ∧
  st.places_failed = st'.places_failed + k ∧
  st.tags_created = st'.tags_created ∧ st.tags_matched = st'.tags_matched

theorem csvStep_congr (api : GoogleApi) (user : String) (i j k : Nat)
    (st st' : ImportState) (r : CsvRow) (h : eqUpToFailures k st st') :
    eqUpToFailures k (csvStep api user i st r) (csvStep api user j st' r) := by
  obtain ⟨hdb, hcache, himp, hskip, hfail, hcr, hm⟩ := h
  have htc : st.tagCtx = st'.tagCtx := by
    simp [ImportState.tagCtx, hdb, hcache, hcr, hm]
  rcases ha : analyzeRow api r with _ | name | name | ⟨name, comment, tags_str, d, lat, lng⟩
  · refine ⟨?_, ?_, ?_, ?_, ?_, ?_, ?_⟩ <;>
      simp only [csvStep, ha, ImportState.fail] <;> first | omega | assumption
  · refine ⟨?_, ?_, ?_, ?_, ?_, ?_, ?_⟩ <;>
      simp only [csvStep, ha, ImportState.fail] <;> first | omega | assumption
  · refine ⟨?_, ?_, ?_, ?_, ?_, ?_, ?_⟩ <;>
      simp only [csvStep, ha, ImportState.fail] <;> first | omega | assumption
  · have hde : is_duplicate_place st'.db.places user lat lng name
        = is_duplicate_place st.db.places user lat lng name := by rw [hdb]
    by_cases hdup : is_duplicate_place st.db.places user lat lng name = true
    · refine ⟨?_, ?_, ?_, ?_, ?_, ?_, ?_⟩ <;>
        simp only [csvStep, ha, hdup, hde, if_true] <;> first | omega | assumption
    · refine ⟨?_, ?_, ?_, ?_, ?_, ?_, ?_⟩ <;>
        simp only [csvStep, ha, hdup, hde, Bool.false_eq_true, if_false, htc] <;>
        omega

theorem csvRunFrom_congr (api : GoogleApi) (user : String) (rows : List CsvRow) :
    ∀ (i j k : Nat) (st st' : ImportState), eqUpToFailures k st st' →
      eqUpToFailures k (csvRunFrom api user i rows st) (csvRunFrom api user j rows st') := by
  induction rows with
  | nil => intro i j k st st' h; exact h
  | cons r rs ih =>
    intro i j k st st' h
    exact ih (i + 1) (j + 1) k _ _ (csvStep_congr api user i j k st st' r h)

/-- C5: in a tabular one-shot Import, a row with no name is recorded as a
per-row failure and every other row is processed exactly as if the bad row
were absent: for a 5-row batch whose third row has no name, the resulting
storage and imported count equal those of the corresponding 4-row batch, and
the failure count exceeds it by exactly one (so if the other four rows import
successfully, places_imported = 4 and at least one row is counted failed). -/
theorem C5_theorem (api : GoogleApi) (user : String) (db : Db)
    (r1 r2 r4 r5 bad : CsvRow) (hbad : rowName bad = "") :
    (csvRunFrom api user 0 [r1, r2, bad, r4, r5] (initState db)).db
      = (csvRunFrom api user 0 [r1, r2, r4, r5] (initState db)).db ∧
    (csvRunFrom api user 0 [r1, r2, bad, r4, r5] (initState db)).places_imported
      = (csvRunFrom api user 0 [r1, r2, r4, r5] (initState db)).places_imported ∧
    (csvRunFrom api user 0 [r1, r2, bad, r4, r5] (initState db)).places_failed
      = (csvRunFrom api user 0 [r1, r2, r4, r5] (initState db)).places_failed + 1 ∧
    1 ≤ (csvRunFrom api user 0 [r1, r2, bad, r4, r5] (initState db)).places_failed := by
  have hbemp : (rowName bad).isEmpty = true := by rw [hbad]; rfl
  have hbr : analyzeRow api bad = RowOutcome.badRow := by
    simp [analyzeRow, hbemp]
  have hstep : csvStep api user 2 (csvStep api user 1 (csvStep api user 0 (initState db) r1) r2) bad
      = (csvStep api user 1 (csvStep api user 0 (initState db) r1) r2).fail
          ("Row " ++ toString (2 + 2) ++ ": Missing name or URL") := by
    simp [csvStep, hbr]
  have hrel : eqUpToFailures 1
      (csvStep api user 2 (csvStep api user 1 (csvStep api user 0 (initState db) r1) r2) bad)
      (csvStep api user 1 (csvStep api user 0 (initState db) r1) r2) := by
    rw [hstep]
    exact ⟨rfl, rfl, rfl, rfl, rfl, rfl, rfl⟩
  have hcong := csvRunFrom_congr api user [r4, r5] 3 2 1 _ _ hrel
  obtain ⟨hdb, -, himp, -, hfail, -, -⟩ := hcong
  refine ⟨hdb, himp, hfail, ?_⟩
  have h1 : 1 ≤ (csvRunFrom api user 2 [r4, r5]
      (csvStep api user 1 (csvStep api user 0 (initState db) r1) r2)).places_failed + 1 :=
    Nat.le_add_left 1 _
  rw [← hfail] at h1
  exact h1

def c5Details (lat lng : ℚ) : PlaceDetails :=
  { location := { latitude := some lat, longitude := some lng },
    formattedAddress := "addr", internationalPhoneNumber := "", websiteUri := "",
    weekdayDescriptions := [] }

def c5Api : GoogleApi :=
  { byId := fun _ => none,
    byText := fun n =>
      if n == "A" then some (c5Details 1 1)
      else if n == "B" then some (c5Details 2 2)
      else if n == "C" then some (c5Details 3 3)
      else if n == "D" then some (c5Details 4 4)
      else none }

def c5Row (n : String) : CsvRow :=
  { note := n, title := "", url := "x", tags := "", comment := "" }

def c5Bad : CsvRow := { note := "", title := "", url := "x", tags := "", comment := "" }

theorem C5_witness :
    (csvRunFrom c5Api "u" 0 [c5Row "A", c5Row "B", c5Bad, c5Row "C", c5Row "D"]
      (initState emptyDb)).places_imported = 4 ∧
    1 ≤ (csvRunFrom c5Api "u" 0 [c5Row "A", c5Row "B", c5Bad, c5Row "C", c5Row "D"]
      (initState emptyDb)).places_failed := by
  obtain ⟨-, himp, -, hone⟩ :=
    C5_theorem c5Api "u" emptyDb (c5Row "A") (c5Row "B") (c5Row "C") (c5Row "D") c5Bad
      (by with_unfolding_all decide)
  refine ⟨?_, hone⟩
  rw [himp]
  with_unfolding_all decide

/-! ## Claim C6 -/

/-- C6: Preview of a feature collection respects the GeoJSON axis order:
a feature with coordinates [-73.99, 40.75] against an empty storage yields one
CandidateRecord with latitude 40.75 and longitude -73.99, not flagged
duplicate, with a null error, and a summary counting one success. -/
theorem C6_theorem :
    preview_geojson "u" cafeDoc emptyDb
      = Except.ok
          { places :=
              [{ name := "Cafe X", address := "1 Main St", latitude := 40.75,
                 longitude := -73.99, notes := "", phone := "", website := "",
                 hours := "", tags := [], is_duplicate := false, error := none }],
            summary :=
              { total := 1, successful := 1, duplicates := 0, failed := 0,
                errors := [] } } := by
  with_unfolding_all rfl

/-! ## Claim C7 -/

/-- C7: persistence failures abort whole batches, per-record problems never
do.  With a failing commit, Confirm returns the original storage state with a
single 500 error, whatever the records were (no partially-applied writes); the
tabular importer behaves the same on decodable input; the GeoJSON importer
never publishes on a failing commit and, on a well-formed envelope, reports a
single 500.  With a succeeding commit every request returns a 200-style
summary, regardless of how many records were invalid or duplicates. -/
theorem C7_theorem :
    (∀ (user : String) (records : List ImportPlacePreview) (db : Db),
        confirm_import user records db false
          = (Except.error { status := 500, detail := "Failed to save import" }, db) ∧
        ∃ s, (confirm_import user records db true).1 = Except.ok s) ∧
    (∀ (api : GoogleApi) (user : String) (rows : List CsvRow) (db : Db),
        import_from_google_maps_csv api user true rows db false
          = (Except.error { status := 500, detail := "Failed to save import" }, db) ∧
        ∃ s, (import_from_google_maps_csv api user true rows db true).1 = Except.ok s) ∧
    (∀ (user : String) (doc : GeoJsonDoc) (db : Db),
        (import_from_geojson user doc db false).2 = db ∧
        (doc.typ = some "FeatureCollection" → doc.features ≠ [] →
          (import_from_geojson user doc db false).1
              = Except.error { status := 500, detail := "Failed to save import" } ∧
          ∃ s, (import_from_geojson user doc db true).1 = Except.ok s)) := by
  refine ⟨fun user records db => ⟨rfl, ⟨_, rfl⟩⟩,
    fun api user rows db => ⟨rfl, ⟨_, rfl⟩⟩,
    fun user doc db => ⟨?_, ?_⟩⟩
  · simp only [import_from_geojson]
    split
    · rfl
    · split
      · rfl
      · rfl
  · intro ht hf
    have hft : (doc.typ != some "FeatureCollection") = false := by simp [ht]
    have hfe : doc.features.isEmpty = false := by
      simpa [List.isEmpty_iff] using hf
    constructor
    · simp [import_from_geojson, hft, hfe]
    · refine ⟨(geoRunFrom user 0 doc.features (initState db)).geoSummary, ?_⟩
      simp [import_from_geojson, hft, hfe]

theorem C7_witness :
    (confirm_import "u" [] emptyDb false
      = (Except.error { status := 500, detail := "Failed to save import" }, emptyDb)) ∧
    ((import_from_geojson "u" cafeDoc emptyDb false).1
      = Except.error { status := 500, detail := "Failed to save import" }) ∧
    ∃ s, (import_from_geojson "u" cafeDoc emptyDb true).1 = Except.ok s :=
  ⟨(C7_theorem.1 "u" [] emptyDb).1,
   ((C7_theorem.2.2 "u" cafeDoc emptyDb).2 rfl (by simp [cafeDoc])).1,
   ((C7_theorem.2.2 "u" cafeDoc emptyDb).2 rfl (by simp [cafeDoc])).2⟩

/-! ## Claim C8 -/

theorem cacheFind_append_self (l : List (String × String)) (k v : String)
    (h : cacheFind l k = none) : cacheFind (l ++ [(k, v)]) k = some v := by
  induction l with
  | nil => simp [cacheFind, List.find?]
  | cons kv t ih =>
    by_cases hkv : (kv.1 == k) = true
    · exfalso
      simp [cacheFind, List.find?, hkv] at h
    · simp only [Bool.not_eq_true] at hkv
      simp only [cacheFind, List.cons_append, List.find?, hkv] at h ⊢
      exact ih h

theorem confirmResolveTag_hit (user : String) (tc : TagCtx) (n tid : String)
    (hn : n.isEmpty = false) (hc : cacheFind tc.cache (lowerKey n) = some tid) :
    confirmResolveTag user tc n = ({ tc with matched := tc.matched + 1 }, some tid) := by
  simp [confirmResolveTag, hn, hc]

theorem confirmResolveTag_miss (user : String) (tc : TagCtx) (n : String)
    (hn : n.isEmpty = false) (hc : cacheFind tc.cache (lowerKey n) = none) :
    ∃ t : Tag, (confirmResolveTag user tc n).2 = some t.id ∧
      (confirmResolveTag user tc n).1.cache = tc.cache ++ [(lowerKey n, t.id)] ∧
      (confirmResolveTag user tc n).1.db.tags.length ≤ tc.db.tags.length + 1 := by
  unfold confirmResolveTag get_or_create_tag
  rcases hd : dbFindTag tc.db user n with _ | t
  · refine ⟨{ id := "tag" ++ toString tc.db.nextTagId, user_id := user, name := n }, ?_⟩
    simp [hn, hc, hd]
  · by_cases hname : (t.name == n) = true
    · refine ⟨t, ?_⟩
      simp [hn, hc, hd, hname]
    · simp only [Bool.not_eq_true] at hname
      refine ⟨t, ?_⟩
      simp [hn, hc, hd, hname]

/-- Record used to falsify claim C8: the same tag name twice, as case
variants. -/
def rSushi : ImportPlacePreview :=
  { name := "Dinner", address := "A", latitude := 1, longitude := 2, notes := "",
    phone := "", website := "", hours := "", tags := ["Sushi", "sushi"],
    is_duplicate := false, error := none }

/-- C8, counterexample: confirming a record whose tag list holds the same tag
name twice (case variants) persists the Place with that tag attached TWICE:
the association list of the stored place has two entries (both the same tag
id), because `place.tags.append(tag)` runs once per occurrence and nothing
collapses the pair. -/
theorem C8_counterexample :
    rSushi.tags = ["Sushi", "sushi"] ∧
    (confirm_import "u" [rSushi] emptyDb true).2.places.map Place.tags
      = [["tag0", "tag0"]] ∧
    (confirm_import "u" [rSushi] emptyDb true).2.tags.length = 1 := by
  refine ⟨rfl, ?_, ?_⟩ <;> with_unfolding_all rfl

/-- C8 (amended): duplicate tag names within one record (including case
variants) all resolve to the same Tag entity — at most one Tag row is looked
up or created for the pair — but the place-tag association is appended once
per occurrence rather than collapsed, so the stored place carries the same
tag id twice. -/
theorem C8_theorem (user : String) (tc : TagCtx) (n1 n2 : String)
    (hk : lowerKey n1 = lowerKey n2) (h1 : n1.isEmpty = false)
    (h2 : n2.isEmpty = false) :
    ∃ t, (confirmResolveTags user tc [n1, n2]).2 = [t, t] ∧
      (confirmResolveTags user tc [n1, n2]).1.db.tags.length
        ≤ tc.db.tags.length + 1 := by
  have hun : confirmResolveTags user tc [n1, n2]
      = ((confirmResolveTag user (confirmResolveTag user tc n1).1 n2).1,
         (confirmResolveTag user tc n1).2.toList ++
           ((confirmResolveTag user (confirmResolveTag user tc n1).1 n2).2.toList ++ [])) :=
    rfl
  rcases hc : cacheFind tc.cache (lowerKey n1) with _ | tid
  · obtain ⟨t, ht2, htcache, htlen⟩ := confirmResolveTag_miss user tc n1 h1 hc
    have hc2 : cacheFind (confirmResolveTag user tc n1).1.cache (lowerKey n2)
        = some t.id := by
      rw [htcache, ← hk]
      exact cacheFind_append_self tc.cache (lowerKey n1) t.id hc
    have hq := confirmResolveTag_hit user (confirmResolveTag user tc n1).1 n2 t.id h2 hc2
    refine ⟨t.id, ?_, ?_⟩
    · rw [hun, ht2, hq]
      rfl
    · rw [hun, hq]
      exact htlen
  · have hr1 := confirmResolveTag_hit user tc n1 tid h1 hc
    have hc2 : cacheFind (confirmResolveTag user tc n1).1.cache (lowerKey n2)
        = some tid := by
      rw [hr1, ← hk]
      exact hc
    have hq := confirmResolveTag_hit user (confirmResolveTag user tc n1).1 n2 tid h2 hc2
    refine ⟨tid, ?_, ?_⟩
    · rw [hun, hq, hr1]
      rfl
    · rw [hun, hq, hr1]
      exact Nat.le_succ _

theorem C8_witness :
    ∃ t, (confirmResolveTags "u" { db := emptyDb, cache := [], created := 0, matched := 0 }
        ["Sushi", "sushi"]).2 = [t, t] ∧
      (confirmResolveTags "u" { db := emptyDb, cache := [], created := 0, matched := 0 }
        ["Sushi", "sushi"]).1.db.tags.length ≤ emptyDb.tags.length + 1 :=
  C8_theorem "u" { db := emptyDb, cache := [], created := 0, matched := 0 }
    "Sushi" "sushi" (by decide) (by decide) (by decide)

/-! ## Claim C9 -/

/-- C9: a latitude or longitude of exactly 0.0 is treated as missing.
Confirm skips any (error-free) record with latitude 0 or longitude 0 as
"missing required fields" because Python truthiness makes `not 0.0` true, and
the tabular enrichment path records "No coordinates found" whenever the
external service answers with latitude 0 or longitude 0, even though 0 is a
valid coordinate. -/
theorem C9_theorem :
    (∀ (user : String) (st : ImportState) (r : ImportPlacePreview),
        r.error = none → (r.latitude = 0 ∨ r.longitude = 0) →
        confirmStep user st r
          = { st with places_skipped := st.places_skipped + 1,
                      errors := st.errors ++
                        ["Skipped '" ++ r.name ++ "': missing required fields"] }) ∧
    (∀ (api : GoogleApi) (user : String) (idx : Nat) (st : ImportState)
        (r : CsvRow) (d : PlaceDetails),
        (rowName r).isEmpty = false → (pyStrip r.url).isEmpty = false →
        rowLookup api (rowName r) (pyStrip r.url) = some d →
        (d.location.latitude = some 0 ∨ d.location.longitude = some 0) →
        csvStep api user idx st r
          = st.fail ("Row " ++ toString (idx + 2) ++ ": No coordinates found")) := by
  constructor
  · intro user st r herr hz
    have h1 : (r.error.isSome && r.name.isEmpty) = false := by simp [herr]
    have h2 : (r.latitude == 0 || r.longitude == 0 || r.name.isEmpty) = true := by
      rcases hz with hz | hz <;> simp [hz]
    unfold confirmStep
    rw [if_neg (by simp [h1]), if_pos h2]
  · intro api user idx st r d hn hu hl hz
    have hq : (qFalsy d.location.latitude || qFalsy d.location.longitude) = true := by
      rcases hz with hz | hz <;> simp [hz, qFalsy]
    have ha : analyzeRow api r = RowOutcome.noCoords (rowName r) := by
      simp [analyzeRow, hn, hu, hl, hq]
    simp [csvStep, ha]

def c9Details : PlaceDetails :=
  { location := { latitude := some 0, longitude := some 5 },
    formattedAddress := "addr", internationalPhoneNumber := "", websiteUri := "",
    weekdayDescriptions := [] }

def c9Api : GoogleApi := { byId := fun _ => none, byText := fun _ => some c9Details }

def c9Rec : ImportPlacePreview :=
  { name := "Zero", address := "A", latitude := 0, longitude := 5, notes := "",
    phone := "", website := "", hours := "", tags := [], is_duplicate := false,
    error := none }

def c9Row : CsvRow := { note := "Z", title := "", url := "x", tags := "", comment := "" }

theorem C9_witness :
    confirmStep "u" (initState emptyDb) c9Rec
      = { initState emptyDb with
            places_skipped := (initState emptyDb).places_skipped + 1,
            errors := (initState emptyDb).errors ++
              ["Skipped '" ++ c9Rec.name ++ "': missing required fields"] } ∧
    csvStep c9Api "u" 0 (initState emptyDb) c9Row
      = (initState emptyDb).fail ("Row " ++ toString (0 + 2) ++ ": No coordinates found") :=
  ⟨C9_theorem.1 "u" (initState emptyDb) c9Rec rfl (Or.inl rfl),
   C9_theorem.2 c9Api "u" 0 (initState emptyDb) c9Row c9Details (by decide) (by decide)
     rfl (Or.inl rfl)⟩

/-! ## Claim C10 -/

/-- C10: every Place created by Confirm, by the one-shot tabular Import loop,
or by the feature-collection Import loop carries `is_public = true` (all three
constructors hard-code it); any place in the resulting storage either was
there before or is public.  No import path reads the owner account or creates
a private place. -/
theorem C10_theorem :
    (∀ (user : String) (records : List ImportPlacePreview) (st : ImportState)
        (p : Place), p ∈ (confirmLoop user records st).db.places →
        p ∈ st.db.places ∨ p.is_public = true) ∧
    (∀ (api : GoogleApi) (user : String) (idx : Nat) (rows : List CsvRow)
        (st : ImportState) (p : Place),
        p ∈ (csvRunFrom api user idx rows st).db.places →
        p ∈ st.db.places ∨ p.is_public = true) ∧
    (∀ (user : String) (idx : Nat) (fs : List GeoFeature) (st : ImportState)
        (p : Place), p ∈ (geoRunFrom user idx fs st).db.places →
        p ∈ st.db.places ∨ p.is_public = true) := by
  refine ⟨?_, ?_, ?_⟩
  · intro user records st p hp
    obtain ⟨l, hl, hpub⟩ := confirmLoop_places user records st
    rw [hl] at hp
    rcases List.mem_append.1 hp with h | h
    · exact Or.inl h
    · exact Or.inr (hpub p h)
  · intro api user idx rows st p hp
    obtain ⟨l, hl, hpub⟩ := csvRunFrom_places api user rows idx st
    rw [hl] at hp
    rcases List.mem_append.1 hp with h | h
    · exact Or.inl h
    · exact Or.inr (hpub p h)
  · intro user idx fs st p hp
    obtain ⟨l, hl, hpub⟩ := geoRunFrom_places user fs idx st
    rw [hl] at hp
    rcases List.mem_append.1 hp with h | h
    · exact Or.inl h
    · exact Or.inr (hpub p h)

def c10Rec : ImportPlacePreview :=
  { name := "P", address := "A", latitude := 1, longitude := 2, notes := "",
    phone := "", website := "", hours := "", tags := [], is_duplicate := false,
    error := none }

def c10Place : Place :=
  { user_id := "u", name := "P", address := "A", latitude := 1, longitude := 2,
    notes := "", phone := none, website := none, hours := none, is_public := true,
    tags := [] }

theorem C10_witness :
    c10Place ∈ (initState emptyDb).db.places ∨ c10Place.is_public = true :=
  C10_theorem.1 "u" [c10Rec] (initState emptyDb) c10Place
    (by with_unfolding_all decide)
